import Mathlib

/-!
Shallow embedding of the AI response orchestration pipeline of the
aipersona backend (files `app/services/gemini_service.py`,
`app/services/chat_service.py`, `app/models/user.py`, `app/scheduler.py`,
`app/config.py`), together with theorems settling the frozen claims about
that pipeline.

Timestamps are modelled as seconds since the UTC epoch (`Nat`); the Python
`datetime.date()` projection becomes integer division by 86400.  Database
rows touched by the pipeline (the per-user `UsageTracking` row) are
modelled as explicit state threaded through the functions.  The two
upstream providers are modelled by the observable outcome of one request
(HTTP error status, or a parsed response body), respectively by the
observable run of one streaming request (the list of yielded text deltas
plus an optional terminal exception).
-/

namespace AiPersona

/-! ## Settings (`app/config.py`)

`Settings` is a pydantic settings class; attribute access for a name that
is not one of its declared fields (or `@property` members) raises
`AttributeError`.  The declared names are transcribed from `config.py`. -/

def settingsFieldNames : List String :=
  [ "DATABASE_CLIENT", "DATABASE_HOST", "DATABASE_PORT", "DATABASE_NAME"
  , "DATABASE_USERNAME", "DATABASE_PASSWORD", "DATABASE_SSL", "DATABASE_URL"
  , "JWT_SECRET_KEY", "JWT_ALGORITHM", "JWT_ACCESS_TOKEN_EXPIRE_MINUTES"
  , "API_V1_PREFIX", "PROJECT_NAME", "DEBUG", "ALLOWED_ORIGINS", "CORS_ORIGINS"
  , "FIREBASE_PROJECT_ID", "FIREBASE_AUTH_ENABLED", "GOOGLE_WEB_CLIENT_ID"
  , "FCM_CREDENTIALS_PATH", "GEMINI_API_KEY", "GEMINI_MODEL"
  , "FREEWAY_API_URL", "FREEWAY_API_KEY", "FREEWAY_MODEL"
  , "GOOGLE_PLAY_SERVICE_ACCOUNT_PATH", "GOOGLE_PLAY_PACKAGE_NAME"
  , "UPLOAD_DIR", "MAX_FILE_SIZE", "ALLOWED_EXTENSIONS", "ALLOWED_FILE_EXTENSIONS"
  , "FILERUNNER_BASE_URL", "FILERUNNER_API_KEY"
  , "SMTP_HOST", "SMTP_PORT", "SMTP_USER", "SMTP_PASSWORD"
  , "SMTP_FROM_EMAIL", "SMTP_FROM_NAME"
  , "FREE_TIER_MESSAGE_LIMIT", "FREE_TIER_PERSONA_LIMIT"
  , "FREE_TIER_HISTORY_DAYS", "FREE_TIER_STORAGE_MB"
  , "GRACE_PERIOD_DAYS", "ADMIN_EMAIL", "ADMIN_PASSWORD"
  , "ADMIN_JWT_EXPIRE_MINUTES", "HOST", "PORT" ]

def settingsHasAttr (name : String) : Bool :=
  settingsFieldNames.contains name

/-- Default value of `Settings.FREE_TIER_MESSAGE_LIMIT` in `config.py`
(the field is environment-overridable, so the quota functions below take
the limit as a parameter). -/
def FREE_TIER_MESSAGE_LIMIT : Nat := 25

/-! ## UsageTracking (`app/models/user.py`) -/

def secondsPerDay : Nat := 86400

/-- Python `datetime.date()` comparison on UTC timestamps: the calendar
day index of a timestamp. -/
def dateOf (t : Nat) : Nat := t / secondsPerDay

/-- The per-user `usage_tracking` row, restricted to the fields the
pipeline reads or writes (`personas_count`, `storage_used_bytes` and the
audit timestamps `created_at` / `updated_at` are not modelled). -/
structure UsageState where
  messages_today : Nat
  gemini_api_calls_today : Nat
  gemini_tokens_used_total : Nat
  messages_count_reset_at : Nat
deriving DecidableEq, Repr

/-- `UsageTracking.check_and_reset_daily` (`user.py`): zero the daily
counters and move `messages_count_reset_at` to `now` when `now` falls on
a strictly later UTC calendar day (the source also refreshes
`updated_at`, an audit field not modelled here). -/
def check_and_reset_daily (u : UsageState) (now : Nat) : UsageState :=
  if dateOf now > dateOf u.messages_count_reset_at then
    { messages_today := 0
    , gemini_api_calls_today := 0
    , gemini_tokens_used_total := u.gemini_tokens_used_total
    , messages_count_reset_at := now }
  else u

/-- The dict returned by `GeminiService._check_usage_limits`. -/
structure LimitCheck where
  allowed : Bool
  reason : Option String
  limit : Option Nat
  used : Option Nat
deriving DecidableEq, Repr

/-- `GeminiService._check_usage_limits`: lazily reset the daily counters,
then let premium users through unconditionally and block free users whose
`messages_today` has reached `settings.FREE_TIER_MESSAGE_LIMIT` (passed
here as `freeTierMessageLimit`).  Returns the usage row after the
check together with the decision dict. -/
def check_usage_limits (is_premium : Bool) (u : UsageState) (now : Nat)
    (freeTierMessageLimit : Nat) : UsageState × LimitCheck :=
  let u1 := check_and_reset_daily u now
  if is_premium then
    (u1, { allowed := true, reason := none, limit := none, used := none })
  else if u1.messages_today ≥ freeTierMessageLimit then
    (u1, { allowed := false
         , reason := some ("Daily message limit reached ("
             ++ Nat.repr freeTierMessageLimit ++ " messages/day for free tier)")
         , limit := some freeTierMessageLimit
         , used := some u1.messages_today })
  else
    (u1, { allowed := true, reason := none, limit := none, used := none })

/-- `GeminiService._update_usage_tracking`: commit one successful
generation against the usage row. -/
def update_usage_tracking (u : UsageState) (tokens_used : Nat) : UsageState :=
  { messages_today := u.messages_today + 1
  , gemini_api_calls_today := u.gemini_api_calls_today + 1
  , gemini_tokens_used_total := u.gemini_tokens_used_total + tokens_used
  , messages_count_reset_at := u.messages_count_reset_at }

/-! ## Sentiment (`GeminiService._analyze_sentiment`) -/

def positive_words : List String :=
  ["happy", "great", "excellent", "good", "wonderful", "amazing", "love", "yes", "!"]

def negative_words : List String :=
  ["sorry", "sad", "bad", "terrible", "no", "unfortunately", "problem", "issue"]

/-- `needle` occurs at the front of `hay`. -/
def leadsChars : List Char → List Char → Bool
  | [], _ => true
  | _ :: _, [] => false
  | a :: as, b :: bs => a == b && leadsChars as bs

/-- `needle` occurs contiguously somewhere in `hay` (Python `needle in hay`). -/
def occursInChars (needle : List Char) : List Char → Bool
  | [] => needle.isEmpty
  | b :: bs => leadsChars needle (b :: bs) || occursInChars needle bs

/-- Python substring membership `needle in hay` for strings. -/
def containsSub (hay needle : String) : Bool :=
  occursInChars needle.data hay.data

def strLower (s : String) : String := String.mk (s.data.map Char.toLower)

/-- `GeminiService._analyze_sentiment`: case-insensitive substring counts
against the two fixed word lists; strict majority wins, ties are neutral. -/
def analyze_sentiment (text : String) : String :=
  let text_lower := strLower text
  let positive_count := (positive_words.filter (fun w => containsSub text_lower w)).length
  let negative_count := (negative_words.filter (fun w => containsSub text_lower w)).length
  if positive_count > negative_count then "positive"
  else if negative_count > positive_count then "negative"
  else "neutral"

/-! ## Conversation history (`GeminiService._build_conversation_history`) -/

/-- A `chat_messages` row, restricted to the fields the pipeline reads. -/
structure ChatMessage where
  sender_type : String
  text : String
  created_at : Nat
deriving DecidableEq, Repr

/-- One role-tagged entry of the OpenAI-format history. -/
structure HistMsg where
  role : String
  content : String
deriving DecidableEq, Repr

/-- Stable insertion for sorting by `created_at` (Python `sorted` is
stable; on equal keys the earlier element stays first). -/
def insertByTime (m : ChatMessage) : List ChatMessage → List ChatMessage
  | [] => [m]
  | x :: xs =>
    if m.created_at ≤ x.created_at then m :: x :: xs else x :: insertByTime m xs

/-- Python `sorted(messages, key=lambda x: x.created_at)`. -/
def sortByTime : List ChatMessage → List ChatMessage
  | [] => []
  | m :: ms => insertByTime m (sortByTime ms)

/-- Python `xs[-n:]`: the last `n` elements, the whole list when `n = 0`
(since `xs[-0:]` is `xs[0:]`). -/
def pyTakeLast (xs : List α) (n : Nat) : List α :=
  if n = 0 then xs else xs.drop (xs.length - n)

/-- Exceptions the pipeline can raise. -/
inductive GenErr where
  /-- `raise ValueError(msg)` -/
  | valueError (msg : String)
  /-- `settings.<attr>` for an attribute `Settings` does not define -/
  | attributeError (attr : String)
  /-- an `httpx.HTTPStatusError` carrying the response status, propagated -/
  | httpStatusError (status : Nat)
deriving DecidableEq, Repr

/-- `GeminiService._build_conversation_history(messages, limit)`:
when `limit` is `None` the code reads `settings.AI_MAX_CONVERSATION_HISTORY`,
a field `Settings` (config.py) does not define, so the access raises
`AttributeError`; otherwise it keeps the most recent `limit` messages in
chronological order and maps `sender_type == "user"` to role `"user"`,
anything else to `"assistant"`. -/
def build_conversation_history (messages : List ChatMessage)
    (limit : Option Nat) : Except GenErr (List HistMsg) :=
  match limit with
  | none => Except.error (GenErr.attributeError "AI_MAX_CONVERSATION_HISTORY")
  | some lim =>
    let recent := pyTakeLast (sortByTime messages) lim
    Except.ok (recent.map (fun m =>
      { role := if m.sender_type = "user" then "user" else "assistant"
      , content := m.text }))

/-! ## Provider outcomes and the buffered fallback block
(`GeminiService.generate_response`, lines 316-358) -/

/-- Observable outcome of one buffered Gemini request: either
`raise_for_status()` raised an `httpx.HTTPStatusError`, or the request
returned a body from which
`candidates[0].content.parts[0].text` was extracted (defaulting to `""`
when absent). -/
inductive GeminiOutcome where
  | httpError (status : Nat)
  | body (text : String)
deriving DecidableEq, Repr

/-- Observable outcome of one buffered Freeway request: either an
`httpx.HTTPStatusError`, or a parsed body carrying
`choices[0].message.content` and (per the OpenAI-style wire contract)
`usage.total_tokens` when the gateway reports it. -/
inductive FreewayOutcome where
  | httpError (status : Nat)
  | body (content : String) (usage_total_tokens : Option Nat)
deriving DecidableEq, Repr

inductive ProviderCall where
  | gemini
  | freeway
deriving DecidableEq, Repr

structure CompletionOk where
  response_text : String
  used_model : String
deriving DecidableEq, Repr

/-- The `try: ... Gemini ... except: ... Freeway ...` block of
`generate_response`: any exception from the Gemini attempt (HTTP status
error, or the `ValueError` raised on an empty `response_text`) leads to
exactly one Freeway attempt; a Freeway success yields its content with
`used_model = "freeway-paid"`, a Freeway `HTTPStatusError` is re-raised.
The second component records the provider requests that were made, in
order. -/
def tryGeminiThenFreeway (gemini_model : String) (g : GeminiOutcome)
    (f : FreewayOutcome) : Except GenErr CompletionOk × List ProviderCall :=
  let fallbackStep : Except GenErr CompletionOk :=
    match f with
    | FreewayOutcome.body content _ =>
        Except.ok { response_text := content, used_model := "freeway-paid" }
    | FreewayOutcome.httpError s => Except.error (GenErr.httpStatusError s)
  match g with
  | GeminiOutcome.body text =>
      if text = "" then (fallbackStep, [ProviderCall.gemini, ProviderCall.freeway])
      else (Except.ok { response_text := text, used_model := "gemini-" ++ gemini_model }
           , [ProviderCall.gemini])
  | GeminiOutcome.httpError _ =>
      (fallbackStep, [ProviderCall.gemini, ProviderCall.freeway])

/-- Line 358 of `gemini_service.py`: `tokens_used = len(response_text) // 4`
(the code computes this for every successful generation, whichever
provider produced the text). -/
def recordedTokens (response_text : String) : Nat :=
  response_text.length / 4

/-! ## The buffered operation (`GeminiService.generate_response`) -/

/-- The inputs `generate_response` reads from the database and the
configuration, besides the caller-supplied arguments. -/
structure GenEnv where
  /-- the `User` row for `user_id` exists -/
  user_found : Bool
  /-- `user.is_premium` -/
  is_premium : Bool
  /-- the `Persona` row for `persona_id` exists -/
  persona_found : Bool
  /-- the user's `usage_tracking` row (created lazily with zero counters
  when absent; the caller of the embedding supplies the row in force) -/
  usage : UsageState
  /-- `utc_now()` at the moment of the call -/
  now : Nat
  /-- `settings.FREE_TIER_MESSAGE_LIMIT` -/
  free_tier_message_limit : Nat
  /-- `settings.GEMINI_MODEL` -/
  gemini_model : String
deriving DecidableEq, Repr

structure GenSuccess where
  response : String
  tokens_used : Nat
  sentiment : String
  model_used : String
  usage_messages_today : Nat
  usage_limit : Option Nat
deriving DecidableEq, Repr

/-- What a call of `generate_response` does: return the
`usage_limit_exceeded` dict, return the success dict, or raise. -/
inductive GenResult where
  | limitExceeded (message : String) (limit : Option Nat) (used : Option Nat)
  | ok (s : GenSuccess)
  | raised (e : GenErr)
deriving DecidableEq, Repr

/-- `GeminiService.generate_response`, with the provider behaviours passed
in as observable outcomes.  Returns the result, the usage row after the
call, and the provider requests made.  Source order is kept: user lookup,
quota check, config defaults for `temperature`/`max_tokens` (reads of
`settings.AI_DEFAULT_TEMPERATURE` / `settings.AI_DEFAULT_MAX_TOKENS`,
fields `Settings` does not define, hence `AttributeError`), persona
lookup, prompt and history build, provider block, token/sentiment
accounting, usage commit.  The persona `conversation_count` increment is
an external row not modelled. -/
def generate_response (env : GenEnv) (conversation_history : List ChatMessage)
    (temperature : Option ℚ) (max_tokens : Option Nat)
    (g : GeminiOutcome) (f : FreewayOutcome) :
    GenResult × UsageState × List ProviderCall :=
  if ¬ env.user_found then
    (GenResult.raised (GenErr.valueError "User not found"), env.usage, [])
  else
    let checked := check_usage_limits env.is_premium env.usage env.now
        env.free_tier_message_limit
    let usage1 := checked.1
    let lc := checked.2
    if ¬ lc.allowed then
      (GenResult.limitExceeded (lc.reason.getD "") lc.limit lc.used, usage1, [])
    else
      match temperature with
      | none => (GenResult.raised (GenErr.attributeError "AI_DEFAULT_TEMPERATURE"), usage1, [])
      | some _ =>
      match max_tokens with
      | none => (GenResult.raised (GenErr.attributeError "AI_DEFAULT_MAX_TOKENS"), usage1, [])
      | some _ =>
      if ¬ env.persona_found then
        (GenResult.raised (GenErr.valueError "Persona not found"), usage1, [])
      else
        match build_conversation_history conversation_history none with
        | Except.error e => (GenResult.raised e, usage1, [])
        | Except.ok _history =>
          let attempt := tryGeminiThenFreeway env.gemini_model g f
          match attempt.1 with
          | Except.error e => (GenResult.raised e, usage1, attempt.2)
          | Except.ok c =>
            let tokens_used := recordedTokens c.response_text
            let sentiment := analyze_sentiment c.response_text
            let usage2 := update_usage_tracking usage1 tokens_used
            (GenResult.ok
              { response := c.response_text
              , tokens_used := tokens_used
              , sentiment := sentiment
              , model_used := c.used_model
              , usage_messages_today := usage2.messages_today
              , usage_limit :=
                  if ¬ env.is_premium then some env.free_tier_message_limit else none }
            , usage2, attempt.2)

/-! ## Streaming (`GeminiService.generate_streaming_response`) -/

/-- Observable run of one streaming provider request: the text deltas the
inner generator yielded, in order, and — when the stream failed (HTTP
status error on connect, or a transport error mid-stream) — the message of
the exception it raised after the last delta. -/
structure StreamRun where
  chunks : List String
  failure : Option String
deriving DecidableEq, Repr

/-- The JSON events `generate_streaming_response` yields, one constructor
per `json.dumps` site in the source. -/
inductive StreamEvent where
  /-- `{"chunk": text}` -/
  | chunk (text : String)
  /-- `{"error": "usage_limit_exceeded", "message": reason}` -/
  | limitError (error : String) (message : String)
  /-- `{"error": "Both Gemini and Freeway failed: " + str(freeway_error)}` -/
  | bothFailedError (error : String)
  /-- the outer `except`: `{"error": str(e)}` -/
  | raisedError (error : String)
  /-- `{"done": True, "tokens_used": .., "sentiment": .., "model_used": ..}` -/
  | done (tokens_used : Nat) (sentiment : String) (model_used : String)
deriving DecidableEq, Repr

/-- The field names of the JSON object each event serializes to, in
source order of the corresponding `json.dumps` literal. -/
def eventKeys : StreamEvent → List String
  | StreamEvent.chunk _ => ["chunk"]
  | StreamEvent.limitError _ _ => ["error", "message"]
  | StreamEvent.bothFailedError _ => ["error"]
  | StreamEvent.raisedError _ => ["error"]
  | StreamEvent.done _ _ _ => ["done", "tokens_used", "sentiment", "model_used"]

/-- An event that ends the stream (everything except a chunk). -/
def isTerminalEvent : StreamEvent → Bool
  | StreamEvent.chunk _ => false
  | _ => true

/-- The `try: ... Gemini stream ... except: ... Freeway stream ...` block
of `generate_streaming_response` (lines 573-618) plus the usage commit and
final metadata event: Gemini deltas are yielded as chunk events as they
arrive; if the Gemini stream raises — also after deltas were already
yielded — or ends with an empty accumulated response, `full_response` is
reset and the Freeway stream is consumed the same way; a Freeway failure
yields the combined-failure error event and returns with no usage commit;
otherwise the accumulated text is tokenized (`len // 4`), sentiment-tagged,
committed, and the done event is yielded. -/
def streamTryGeminiThenFreeway (gemini_model : String) (g f : StreamRun)
    (usage : UsageState) :
    List StreamEvent × UsageState × List ProviderCall :=
  let primaryEvents := g.chunks.map StreamEvent.chunk
  let fallbackPath : List StreamEvent × UsageState × List ProviderCall :=
    let fallbackEvents := f.chunks.map StreamEvent.chunk
    match f.failure with
    | some msg =>
        (primaryEvents ++ fallbackEvents
          ++ [StreamEvent.bothFailedError ("Both Gemini and Freeway failed: " ++ msg)]
        , usage, [ProviderCall.gemini, ProviderCall.freeway])
    | none =>
        let full_response := String.join f.chunks
        let tokens_used := recordedTokens full_response
        (primaryEvents ++ fallbackEvents
          ++ [StreamEvent.done tokens_used (analyze_sentiment full_response) "freeway-paid"]
        , update_usage_tracking usage tokens_used
        , [ProviderCall.gemini, ProviderCall.freeway])
  match g.failure with
  | some _ => fallbackPath
  | none =>
      let full_response := String.join g.chunks
      if full_response = "" then fallbackPath
      else
        let tokens_used := recordedTokens full_response
        (primaryEvents
          ++ [StreamEvent.done tokens_used (analyze_sentiment full_response)
                ("gemini-" ++ gemini_model)]
        , update_usage_tracking usage tokens_used
        , [ProviderCall.gemini])

/-- `GeminiService.generate_streaming_response`, with the two provider
stream behaviours passed in as observable runs.  Returns the yielded
events and the usage row after the call.  Source order is kept: config
defaults first (reads of the `AI_DEFAULT_*` fields `Settings` does not
define), then user lookup, quota check, persona lookup, history build
(`_build_conversation_history` called without a limit), then the stream
block; every exception raised inside the generator is caught by the outer
`except` and yielded as a single `{"error": str(e)}` event. -/
def generate_streaming_response (env : GenEnv)
    (conversation_history : List ChatMessage)
    (temperature : Option ℚ) (max_tokens : Option Nat)
    (g f : StreamRun) : List StreamEvent × UsageState :=
  match temperature with
  | none => ([StreamEvent.raisedError ("AttributeError: " ++ "AI_DEFAULT_TEMPERATURE")], env.usage)
  | some _ =>
  match max_tokens with
  | none => ([StreamEvent.raisedError ("AttributeError: " ++ "AI_DEFAULT_MAX_TOKENS")], env.usage)
  | some _ =>
  if ¬ env.user_found then
    ([StreamEvent.raisedError "User not found"], env.usage)
  else
    let checked := check_usage_limits env.is_premium env.usage env.now
        env.free_tier_message_limit
    let usage1 := checked.1
    let lc := checked.2
    if ¬ lc.allowed then
      ([StreamEvent.limitError "usage_limit_exceeded" (lc.reason.getD "")], usage1)
    else if ¬ env.persona_found then
      ([StreamEvent.raisedError "Persona not found"], usage1)
    else
      match build_conversation_history conversation_history none with
      | Except.error (GenErr.attributeError a) =>
          ([StreamEvent.raisedError ("AttributeError: " ++ a)], usage1)
      | Except.error (GenErr.valueError m) =>
          ([StreamEvent.raisedError m], usage1)
      | Except.error (GenErr.httpStatusError s) =>
          ([StreamEvent.raisedError (Nat.repr s)], usage1)
      | Except.ok _history =>
          let run := streamTryGeminiThenFreeway env.gemini_model g f usage1
          (run.1, run.2.1)

/-! ## Greeting sentinel (`ChatService.send_message`) -/

/-- Python `str.strip()` on the front of a character list. -/
def dropLeadingWs : List Char → List Char
  | [] => []
  | c :: cs => if c.isWhitespace then dropLeadingWs cs else c :: cs

/-- Python `message_text.strip()`. -/
def pyStrip (s : String) : String :=
  String.mk ((dropLeadingWs (dropLeadingWs s.data).reverse).reverse)

/-- The fixed self-introduction instruction of `send_message`. -/
def greetingInstruction : String :=
  "Please introduce yourself in character. Give a brief, engaging greeting that shows your personality."

/-- The slice of `ChatService.send_message` that decides what is handed to
`generate_response`: on the `[GREETING]` sentinel (after stripping), the
user-turn text is replaced by the fixed instruction and the conversation
history passed on is empty; otherwise the text and the stored session
history pass through unchanged. -/
def send_message_args (message_text : String)
    (stored_history : List ChatMessage) : String × List ChatMessage :=
  let is_greeting := pyStrip message_text = "[GREETING]"
  let actual_message := if is_greeting then greetingInstruction else message_text
  (actual_message, if is_greeting then [] else stored_history)

/-! ## Mutations of the usage row (`user.py`, `gemini_service.py`,
`scheduler.py`) -/

/-- The three operations that mutate a user's `usage_tracking` row. -/
inductive UsageOp where
  /-- the lazy reset performed by every quota check
  (`UsageTracking.check_and_reset_daily`) -/
  | checkReset
  /-- the commit after a successful generation
  (`GeminiService._update_usage_tracking`) -/
  | commit (tokens_used : Nat)
  /-- the daily cron job (`scheduler.reset_daily_counters`): unconditionally
  zero the daily counters and set `messages_count_reset_at` to now -/
  | cronReset
deriving DecidableEq, Repr

def applyUsageOp (s : UsageState) (now : Nat) : UsageOp → UsageState
  | UsageOp.checkReset => check_and_reset_daily s now
  | UsageOp.commit tk => update_usage_tracking s tk
  | UsageOp.cronReset =>
      { messages_today := 0
      , gemini_api_calls_today := 0
      , gemini_tokens_used_total := s.gemini_tokens_used_total
      , messages_count_reset_at := now }

/-- Reachable (row state, current time) pairs: the row is created with
zero counters and `messages_count_reset_at = utc_now()` (the column
defaults in `user.py`), and is then mutated by the three operations at
non-decreasing times. -/
inductive UsageReachable : UsageState → Nat → Prop where
  | init (t0 : Nat) :
      UsageReachable
        { messages_today := 0, gemini_api_calls_today := 0
        , gemini_tokens_used_total := 0, messages_count_reset_at := t0 } t0
  | step {s : UsageState} {t t' : Nat} (op : UsageOp) :
      UsageReachable s t → t ≤ t' → UsageReachable (applyUsageOp s t' op) t'

/-- The invariant claimed by the spec: `last_reset_at` is the start of
some UTC calendar day. -/
def lastResetIsUtcDayStart (s : UsageState) : Prop :=
  s.messages_count_reset_at % secondsPerDay = 0

/-! ## Claim C5 -/

/-- Claim C5: whenever the quota check runs at a time `now` whose UTC
calendar day is strictly after that of `messages_count_reset_at`, it
zeroes `messages_today` and `gemini_api_calls_today` and sets
`messages_count_reset_at = now`, leaving the lifetime token total alone;
the limit is evaluated on the reset row (`check_usage_limits` threads the
reset state into its decision, so a fresh day always re-opens a positive
limit for free users); and re-running the reset later in the same UTC day
changes nothing. -/
theorem c5_daily_reset (u : UsageState) (now now2 : Nat)
    (h : dateOf now > dateOf u.messages_count_reset_at) :
    (check_and_reset_daily u now).messages_today = 0 ∧
    (check_and_reset_daily u now).gemini_api_calls_today = 0 ∧
    (check_and_reset_daily u now).messages_count_reset_at = now ∧
    (check_and_reset_daily u now).gemini_tokens_used_total = u.gemini_tokens_used_total ∧
    (∀ p lim, (check_usage_limits p u now lim).1 = check_and_reset_daily u now) ∧
    (∀ lim, (check_usage_limits false u now lim).2.allowed = decide (0 < lim)) ∧
    (dateOf now2 = dateOf now →
      check_and_reset_daily (check_and_reset_daily u now) now2 = check_and_reset_daily u now) := by
  have hreset : check_and_reset_daily u now =
      { messages_today := 0, gemini_api_calls_today := 0
      , gemini_tokens_used_total := u.gemini_tokens_used_total
      , messages_count_reset_at := now } := by
    simp [check_and_reset_daily, h]
  refine ⟨by simp [hreset], by simp [hreset], by simp [hreset], by simp [hreset], ?_, ?_, ?_⟩
  · intro p lim
    cases p
    · simp only [check_usage_limits]
      split_ifs <;> rfl
    · simp [check_usage_limits]
  · intro lim
    rcases Nat.eq_zero_or_pos lim with hl | hl
    · subst hl; simp [check_usage_limits, hreset]
    · simp [check_usage_limits, hreset, Nat.not_le.mpr hl, hl]
  · intro hsame
    rw [hreset]
    simp [check_and_reset_daily, hsame]

/-- Closed instance of `c5_daily_reset`. -/
theorem c5_daily_reset_witness :
    (check_and_reset_daily ⟨5, 3, 7, 0⟩ 90000).messages_today = 0 ∧
    (check_and_reset_daily ⟨5, 3, 7, 0⟩ 90000).messages_count_reset_at = 90000 ∧
    check_and_reset_daily (check_and_reset_daily ⟨5, 3, 7, 0⟩ 90000) 90001 =
      check_and_reset_daily ⟨5, 3, 7, 0⟩ 90000 := by
  have h := c5_daily_reset ⟨5, 3, 7, 0⟩ 90000 90001 (by decide)
  exact ⟨h.1, h.2.2.1, h.2.2.2.2.2.2 (by decide)⟩

/-! ## Claim C6 -/

/-- Claim C6: a premium user's quota check always returns the plain
`allowed = True` dict, whatever the counter values; a free user is blocked
exactly when the (post-reset) `messages_today` has reached
`settings.FREE_TIER_MESSAGE_LIMIT`, and the blocking dict then carries the
reason string, the configured limit itself (not a value derived from the
usage data), and the current count. -/
theorem c6_quota_decision (u : UsageState) (now lim : Nat) :
    (check_usage_limits true u now lim).2 =
      { allowed := true, reason := none, limit := none, used := none } ∧
    (((check_usage_limits false u now lim).2.allowed = false) ↔
       lim ≤ (check_and_reset_daily u now).messages_today) ∧
    (lim ≤ (check_and_reset_daily u now).messages_today →
       (check_usage_limits false u now lim).2 =
         { allowed := false
         , reason := some ("Daily message limit reached ("
             ++ Nat.repr lim ++ " messages/day for free tier)")
         , limit := some lim
         , used := some (check_and_reset_daily u now).messages_today }) := by
  refine ⟨by simp [check_usage_limits], ?_, ?_⟩
  · by_cases hb : lim ≤ (check_and_reset_daily u now).messages_today <;>
      simp [check_usage_limits, hb]
  · intro hb
    simp [check_usage_limits, hb]

/-- Closed instance of `c6_quota_decision`: a premium user with the
counter far over the limit is allowed; a free user at the limit is
blocked with `used = limit = 25`. -/
theorem c6_quota_decision_witness :
    (check_usage_limits true ⟨1000, 0, 0, 0⟩ 0 25).2 =
      { allowed := true, reason := none, limit := none, used := none } ∧
    (check_usage_limits false ⟨25, 0, 0, 0⟩ 0 25).2 =
      { allowed := false
      , reason := some "Daily message limit reached (25 messages/day for free tier)"
      , limit := some 25, used := some 25 } := by
  refine ⟨(c6_quota_decision ⟨1000, 0, 0, 0⟩ 0 25).1, ?_⟩
  have h := (c6_quota_decision ⟨25, 0, 0, 0⟩ 0 25).2.2 (by decide)
  simpa [check_and_reset_daily, dateOf] using h

/-! ## Claim C8 -/

/-- Claim C8 as stated is false: the code never rounds
`messages_count_reset_at` down to midnight — `check_and_reset_daily`,
the cron reset and the row default all store `utc_now()` itself.  The
state reached from a row created at the epoch by one lazy check at
`90000` seconds (01:00 UTC of day 1) has `messages_count_reset_at =
90000`, which is not the start of a UTC calendar day. -/
theorem c8_counterexample :
    UsageReachable ⟨0, 0, 0, 90000⟩ 90000 ∧
    ¬ lastResetIsUtcDayStart ⟨0, 0, 0, 90000⟩ := by
  constructor
  · have h := UsageReachable.step UsageOp.checkReset (UsageReachable.init 0)
      (Nat.zero_le 90000)
    have e : applyUsageOp ⟨0, 0, 0, 0⟩ 90000 UsageOp.checkReset = ⟨0, 0, 0, 90000⟩ := by
      decide
    rwa [e] at h
  · unfold lastResetIsUtcDayStart secondsPerDay
    decide

/-- Claim C8 amended: in every reachable state of the usage row,
`messages_count_reset_at` is a UTC instant (not necessarily a day start)
at or before the current time — so its calendar day is the current or an
earlier one — and all three mutating operations (lazy check-reset, commit
increment, cron reset) preserve this. -/
theorem c8_amended_reset_at_le_now (s : UsageState) (t : Nat)
    (h : UsageReachable s t) :
    s.messages_count_reset_at ≤ t ∧
    dateOf s.messages_count_reset_at ≤ dateOf t := by
  have hle : s.messages_count_reset_at ≤ t := by
    induction h with
    | init t0 => exact le_rfl
    | step op hr hstep ih =>
      cases op with
      | checkReset =>
        simp only [applyUsageOp, check_and_reset_daily]
        split
        · exact le_rfl
        · exact le_trans ih hstep
      | commit tk =>
        simpa [applyUsageOp, update_usage_tracking] using le_trans ih hstep
      | cronReset =>
        simp [applyUsageOp]
  exact ⟨hle, Nat.div_le_div_right hle⟩

/-- Closed instance of `c8_amended_reset_at_le_now` at a freshly created
row. -/
theorem c8_amended_reset_at_le_now_witness :
    (⟨0, 0, 0, 5⟩ : UsageState).messages_count_reset_at ≤ 5 ∧
    dateOf (⟨0, 0, 0, 5⟩ : UsageState).messages_count_reset_at ≤ dateOf 5 :=
  c8_amended_reset_at_le_now _ _ (UsageReachable.init 5)

/-! ## Claim C1 -/

/-- Claim C1 as stated is false: the source wraps the whole primary
attempt in `except Exception`, so a client-side HTTP 401 from Gemini is
handled exactly like a 5xx — the Freeway fallback IS called, and when it
succeeds the operation completes successfully instead of terminating with
a hard failure.  The same holds for the streaming variant. -/
theorem c1_counterexample :
    (tryGeminiThenFreeway "1.5-flash" (GeminiOutcome.httpError 401)
        (FreewayOutcome.body "ok" none)).2.contains ProviderCall.freeway = true ∧
    (tryGeminiThenFreeway "1.5-flash" (GeminiOutcome.httpError 401)
        (FreewayOutcome.body "ok" none)).1 =
      Except.ok { response_text := "ok", used_model := "freeway-paid" } ∧
    (streamTryGeminiThenFreeway "1.5-flash" ⟨[], some "401 Unauthorized"⟩
        ⟨["ok"], none⟩ ⟨0, 0, 0, 0⟩).2.2.contains ProviderCall.freeway = true :=
  ⟨by decide, rfl, by decide⟩

/-- Claim C1 amended: for every primary-provider failure — the class of
the error is never inspected, so this includes HTTP 4xx such as 401 — the
orchestration calls the fallback exactly once (buffered and streamed);
the request hard-fails only when that single fallback attempt also fails,
and then with the fallback's error. -/
theorem c1_always_falls_back (m : String) (status : Nat) (f : FreewayOutcome)
    (chunks : List String) (e : String) (fr : StreamRun) (u : UsageState) :
    (tryGeminiThenFreeway m (GeminiOutcome.httpError status) f).2 =
      [ProviderCall.gemini, ProviderCall.freeway] ∧
    (∀ c ut, f = FreewayOutcome.body c ut →
       (tryGeminiThenFreeway m (GeminiOutcome.httpError status) f).1 =
         Except.ok { response_text := c, used_model := "freeway-paid" }) ∧
    (∀ s, f = FreewayOutcome.httpError s →
       (tryGeminiThenFreeway m (GeminiOutcome.httpError status) f).1 =
         Except.error (GenErr.httpStatusError s)) ∧
    (streamTryGeminiThenFreeway m ⟨chunks, some e⟩ fr u).2.2 =
      [ProviderCall.gemini, ProviderCall.freeway] := by
  refine ⟨rfl, ?_, ?_, ?_⟩
  · intro c ut hf; subst hf; rfl
  · intro s hf; subst hf; rfl
  · cases hfr : fr.failure <;> simp [streamTryGeminiThenFreeway, hfr]

/-- Closed instance of `c1_always_falls_back` at a 401 primary failure. -/
theorem c1_always_falls_back_witness :
    (tryGeminiThenFreeway "1.5-flash" (GeminiOutcome.httpError 401)
        (FreewayOutcome.httpError 502)).1 =
      Except.error (GenErr.httpStatusError 502) ∧
    (streamTryGeminiThenFreeway "1.5-flash" ⟨["a"], some "boom"⟩ ⟨[], none⟩
        ⟨0, 0, 0, 0⟩).2.2 = [ProviderCall.gemini, ProviderCall.freeway] := by
  have h := c1_always_falls_back "1.5-flash" 401 (FreewayOutcome.httpError 502)
    ["a"] "boom" ⟨[], none⟩ ⟨0, 0, 0, 0⟩
  exact ⟨h.2.2.1 502 rfl, h.2.2.2⟩

/-! ## Claim C4 -/

/-- Claim C4: when the primary attempt fails with a server-side class —
an HTTP 503 status error, or a response whose extracted text is empty —
the buffered orchestration calls the Freeway fallback exactly once (the
call trace is literally `[gemini, freeway]`, so there is no second retry
and no backoff loop); a fallback success is returned as the fallback's
content labelled `"freeway-paid"`, and a fallback failure propagates the
fallback's own HTTP error, not the primary's. -/
theorem c4_server_error_single_fallback (m : String) (g : GeminiOutcome)
    (f : FreewayOutcome)
    (hg : g = GeminiOutcome.httpError 503 ∨ g = GeminiOutcome.body "") :
    (tryGeminiThenFreeway m g f).2 = [ProviderCall.gemini, ProviderCall.freeway] ∧
    (tryGeminiThenFreeway m g f).2.count ProviderCall.freeway = 1 ∧
    (∀ c ut, f = FreewayOutcome.body c ut →
       (tryGeminiThenFreeway m g f).1 =
         Except.ok { response_text := c, used_model := "freeway-paid" }) ∧
    (∀ s, f = FreewayOutcome.httpError s →
       (tryGeminiThenFreeway m g f).1 = Except.error (GenErr.httpStatusError s)) := by
  have hblock : tryGeminiThenFreeway m g f =
      ((match f with
        | FreewayOutcome.body content _ =>
            Except.ok { response_text := content, used_model := "freeway-paid" }
        | FreewayOutcome.httpError s => Except.error (GenErr.httpStatusError s))
      , [ProviderCall.gemini, ProviderCall.freeway]) := by
    rcases hg with hg | hg <;> subst hg <;> simp [tryGeminiThenFreeway]
  refine ⟨by rw [hblock], by rw [hblock]; rfl, ?_, ?_⟩
  · intro c ut hf; subst hf; rw [hblock]
  · intro s hf; subst hf; rw [hblock]

/-- Closed instance of `c4_server_error_single_fallback`: primary 503,
fallback succeeding and fallback failing with 429. -/
theorem c4_server_error_single_fallback_witness :
    (tryGeminiThenFreeway "1.5-flash" (GeminiOutcome.httpError 503)
        (FreewayOutcome.body "ok" (some 7))).1 =
      Except.ok { response_text := "ok", used_model := "freeway-paid" } ∧
    (tryGeminiThenFreeway "1.5-flash" (GeminiOutcome.httpError 503)
        (FreewayOutcome.httpError 429)).1 =
      Except.error (GenErr.httpStatusError 429) ∧
    (tryGeminiThenFreeway "1.5-flash" (GeminiOutcome.body "")
        (FreewayOutcome.body "ok" none)).2.count ProviderCall.freeway = 1 :=
  ⟨(c4_server_error_single_fallback "1.5-flash" _ _ (Or.inl rfl)).2.2.1 "ok" (some 7) rfl
  , (c4_server_error_single_fallback "1.5-flash" _ _ (Or.inl rfl)).2.2.2 429 rfl
  , (c4_server_error_single_fallback "1.5-flash" _ _ (Or.inr rfl)).2.1⟩

/-! ## Claim C7 -/

/-- Claim C7 is the spec's intent and the source's own comment
("Get token usage (estimate if not provided)"), but the code
unconditionally computes `len(response_text) // 4` and never reads the
`usage` object of the Freeway response: with the primary failing with 503
and the fallback returning a 9-character content whose body reports
`usage.total_tokens = 100`, the generation succeeds via the fallback yet
records 2 tokens, not 100; indeed the result of the provider block does
not depend on the reported usage value at all. -/
theorem c7_reported_usage_ignored :
    (tryGeminiThenFreeway "1.5-flash" (GeminiOutcome.httpError 503)
        (FreewayOutcome.body "hi there!" (some 100))).1 =
      Except.ok { response_text := "hi there!", used_model := "freeway-paid" } ∧
    recordedTokens "hi there!" = 2 ∧
    (∀ m g c ut ut2,
       tryGeminiThenFreeway m g (FreewayOutcome.body c ut) =
         tryGeminiThenFreeway m g (FreewayOutcome.body c ut2)) := by
  refine ⟨rfl, by decide, ?_⟩
  intro m g c ut ut2
  cases g <;> rfl

/-! ## Claim C2 -/

/-- Claim C2 as stated is false: after the chunk `"Hel"` has already been
yielded, a primary failure does NOT end the stream with a terminal error —
the generator retries against Freeway, yields its chunk `"lo"` after the
already-delivered one, finishes with a done event, and commits usage
(`messages_today` and `gemini_api_calls_today` are incremented). -/
theorem c2_counterexample :
    streamTryGeminiThenFreeway "1.5-flash" ⟨["Hel"], some "boom"⟩ ⟨["lo"], none⟩
        ⟨0, 0, 0, 0⟩ =
      ([StreamEvent.chunk "Hel", StreamEvent.chunk "lo",
        StreamEvent.done 0 "neutral" "freeway-paid"],
       ⟨1, 1, 0, 0⟩, [ProviderCall.gemini, ProviderCall.freeway]) := by
  decide

/-- Claim C2 amended: a mid-stream primary failure — also after chunks
have been yielded — makes the generator retry against the Freeway
fallback, yielding the fallback's chunks after the already-delivered
primary chunks; on fallback success it emits the done event and commits
the usage counters for the fallback text alone; only when the fallback
also fails does it emit one terminal error event with no usage commit. -/
theorem c2_midstream_failure_retries_fallback (m : String) (g f : StreamRun)
    (u : UsageState) (e : String) (hg : g.failure = some e) :
    (∀ msg, f.failure = some msg →
       streamTryGeminiThenFreeway m g f u =
         (g.chunks.map StreamEvent.chunk ++ f.chunks.map StreamEvent.chunk
            ++ [StreamEvent.bothFailedError ("Both Gemini and Freeway failed: " ++ msg)],
          u, [ProviderCall.gemini, ProviderCall.freeway])) ∧
    (f.failure = none →
       streamTryGeminiThenFreeway m g f u =
         (g.chunks.map StreamEvent.chunk ++ f.chunks.map StreamEvent.chunk
            ++ [StreamEvent.done (recordedTokens (String.join f.chunks))
                  (analyze_sentiment (String.join f.chunks)) "freeway-paid"],
          update_usage_tracking u (recordedTokens (String.join f.chunks)),
          [ProviderCall.gemini, ProviderCall.freeway])) := by
  constructor
  · intro msg hf
    simp [streamTryGeminiThenFreeway, hg, hf]
  · intro hf
    simp [streamTryGeminiThenFreeway, hg, hf]

/-- Closed instance of `c2_midstream_failure_retries_fallback`: the
fallback also fails, so the stream ends in the combined error event and
the usage row is untouched. -/
theorem c2_midstream_failure_retries_fallback_witness :
    streamTryGeminiThenFreeway "1.5-flash" ⟨["Hel"], some "boom"⟩
        ⟨[], some "503 Service Unavailable"⟩ ⟨2, 2, 9, 0⟩ =
      ([StreamEvent.chunk "Hel",
        StreamEvent.bothFailedError
          "Both Gemini and Freeway failed: 503 Service Unavailable"],
       ⟨2, 2, 9, 0⟩, [ProviderCall.gemini, ProviderCall.freeway]) := by
  have h := (c2_midstream_failure_retries_fallback "1.5-flash"
    ⟨["Hel"], some "boom"⟩ ⟨[], some "503 Service Unavailable"⟩ ⟨2, 2, 9, 0⟩
    "boom" rfl).1 "503 Service Unavailable" rfl
  simpa using h

/-! ## Claim C9 -/

/-- Claim C9 as stated is false: the terminal metadata event of a
successful streamed generation is serialized with the field names
`done`, `tokens_used`, `sentiment` and `model_used` — there is no
`provider_used` field. -/
theorem c9_counterexample :
    (streamTryGeminiThenFreeway "1.5-flash" ⟨["Hi!"], none⟩ ⟨[], none⟩
        ⟨0, 0, 0, 0⟩).1 =
      [StreamEvent.chunk "Hi!", StreamEvent.done 0 "positive" "gemini-1.5-flash"] ∧
    eventKeys (StreamEvent.done 0 "positive" "gemini-1.5-flash") =
      ["done", "tokens_used", "sentiment", "model_used"] ∧
    (eventKeys (StreamEvent.done 0 "positive" "gemini-1.5-flash")).contains
      "provider_used" = false := by
  refine ⟨by decide, rfl, by decide⟩

/-- Claim C9 amended: every streamed generation's output is zero or more
chunk events followed by exactly one terminal event, where the terminal
event is either the done event `{"done": true, "tokens_used": ..,
"sentiment": .., "model_used": ..}` (with `model_used`, not
`provider_used`) or a JSON object whose first field is `"error"` (the
usage-limit event also carries a `"message"` field); no event follows the
terminal one.  This holds for the provider block and for the full
generator (whose quota and exception paths yield a single error event). -/
theorem c9_stream_event_grammar :
    (∀ m g f u, ∃ (cs : List String) (t : StreamEvent),
        (streamTryGeminiThenFreeway m g f u).1 = cs.map StreamEvent.chunk ++ [t] ∧
        isTerminalEvent t = true ∧
        ((∃ tk sv mv, t = StreamEvent.done tk sv mv) ∨
          (eventKeys t).head? = some "error")) ∧
    (∀ env ch temp mt g f, ∃ (cs : List String) (t : StreamEvent),
        (generate_streaming_response env ch temp mt g f).1 =
          cs.map StreamEvent.chunk ++ [t] ∧
        isTerminalEvent t = true ∧
        ((∃ tk sv mv, t = StreamEvent.done tk sv mv) ∨
          (eventKeys t).head? = some "error")) := by
  constructor
  · intro m g f u
    cases hgf : g.failure with
    | some e =>
      cases hff : f.failure with
      | some msg =>
        refine ⟨g.chunks ++ f.chunks,
          StreamEvent.bothFailedError ("Both Gemini and Freeway failed: " ++ msg),
          ?_, rfl, Or.inr rfl⟩
        simp [streamTryGeminiThenFreeway, hgf, hff]
      | none =>
        refine ⟨g.chunks ++ f.chunks,
          StreamEvent.done (recordedTokens (String.join f.chunks))
            (analyze_sentiment (String.join f.chunks)) "freeway-paid",
          ?_, rfl, Or.inl ⟨_, _, _, rfl⟩⟩
        simp [streamTryGeminiThenFreeway, hgf, hff]
    | none =>
      by_cases hempty : String.join g.chunks = ""
      · cases hff : f.failure with
        | some msg =>
          refine ⟨g.chunks ++ f.chunks,
            StreamEvent.bothFailedError ("Both Gemini and Freeway failed: " ++ msg),
            ?_, rfl, Or.inr rfl⟩
          simp [streamTryGeminiThenFreeway, hgf, hff, hempty]
        | none =>
          refine ⟨g.chunks ++ f.chunks,
            StreamEvent.done (recordedTokens (String.join f.chunks))
              (analyze_sentiment (String.join f.chunks)) "freeway-paid",
            ?_, rfl, Or.inl ⟨_, _, _, rfl⟩⟩
          simp [streamTryGeminiThenFreeway, hgf, hff, hempty]
      · refine ⟨g.chunks,
          StreamEvent.done (recordedTokens (String.join g.chunks))
            (analyze_sentiment (String.join g.chunks)) ("gemini-" ++ m),
          ?_, rfl, Or.inl ⟨_, _, _, rfl⟩⟩
        simp [streamTryGeminiThenFreeway, hgf, hempty]
  · intro env ch temp mt g f
    cases temp with
    | none =>
      exact ⟨[], StreamEvent.raisedError ("AttributeError: " ++ "AI_DEFAULT_TEMPERATURE"),
        rfl, rfl, Or.inr rfl⟩
    | some tv =>
    cases mt with
    | none =>
      exact ⟨[], StreamEvent.raisedError ("AttributeError: " ++ "AI_DEFAULT_MAX_TOKENS"),
        rfl, rfl, Or.inr rfl⟩
    | some mv =>
    by_cases hu : env.user_found
    · by_cases hq : (check_usage_limits env.is_premium env.usage env.now
          env.free_tier_message_limit).2.allowed
      · by_cases hp : env.persona_found
        · refine ⟨[], StreamEvent.raisedError
            ("AttributeError: " ++ "AI_MAX_CONVERSATION_HISTORY"), ?_, rfl, Or.inr rfl⟩
          simp [generate_streaming_response, hu, hq, hp, build_conversation_history]
        · refine ⟨[], StreamEvent.raisedError "Persona not found", ?_, rfl, Or.inr rfl⟩
          simp [generate_streaming_response, hu, hq, hp]
      · refine ⟨[], StreamEvent.limitError "usage_limit_exceeded"
          ((check_usage_limits env.is_premium env.usage env.now
            env.free_tier_message_limit).2.reason.getD ""), ?_, rfl, Or.inr rfl⟩
        simp [generate_streaming_response, hu, hq]
    · refine ⟨[], StreamEvent.raisedError "User not found", ?_, rfl, Or.inr rfl⟩
      simp [generate_streaming_response, hu]

/-! ## Claim C3 -/

/-- No call of the embedded `generate_response` ever returns the success
dict: every path that passes the quota gate raises an `AttributeError`
(on the `AI_DEFAULT_*` defaults when `temperature`/`max_tokens` is
omitted, and otherwise on `AI_MAX_CONVERSATION_HISTORY` inside the
unconditional `_build_conversation_history(conversation_history)` call). -/
theorem generate_response_never_ok (env : GenEnv) (ch : List ChatMessage)
    (temp : Option ℚ) (mt : Option Nat) (g : GeminiOutcome) (f : FreewayOutcome)
    (s : GenSuccess) : (generate_response env ch temp mt g f).1 ≠ GenResult.ok s := by
  by_cases hu : env.user_found
  · cases temp <;> cases mt <;>
      simp only [generate_response, hu, not_true, if_false, if_neg] <;>
      split_ifs <;>
      simp [build_conversation_history]
  · simp [generate_response, hu]

/-- Claim C3: the `Settings` class of `config.py` declares none of
`AI_DEFAULT_TEMPERATURE`, `AI_DEFAULT_MAX_TOKENS`,
`AI_MAX_CONVERSATION_HISTORY`; `_build_conversation_history` with
`limit=None` therefore raises `AttributeError`, a buffered call that
passes the quota gate with `temperature` (resp. `max_tokens`) omitted
raises the corresponding `AttributeError`, a streaming call with either
omitted yields the single corresponding error event, and no
default-parameter call ever produces a generation result. -/
theorem c3_missing_ai_settings :
    (settingsHasAttr "AI_DEFAULT_TEMPERATURE" = false ∧
     settingsHasAttr "AI_DEFAULT_MAX_TOKENS" = false ∧
     settingsHasAttr "AI_MAX_CONVERSATION_HISTORY" = false) ∧
    (∀ msgs, build_conversation_history msgs none =
       Except.error (GenErr.attributeError "AI_MAX_CONVERSATION_HISTORY")) ∧
    (∀ env ch mt g f, env.user_found = true →
       (check_usage_limits env.is_premium env.usage env.now
         env.free_tier_message_limit).2.allowed = true →
       (generate_response env ch none mt g f).1 =
         GenResult.raised (GenErr.attributeError "AI_DEFAULT_TEMPERATURE")) ∧
    (∀ env ch tv g f, env.user_found = true →
       (check_usage_limits env.is_premium env.usage env.now
         env.free_tier_message_limit).2.allowed = true →
       (generate_response env ch (some tv) none g f).1 =
         GenResult.raised (GenErr.attributeError "AI_DEFAULT_MAX_TOKENS")) ∧
    (∀ env ch mt g f, (generate_streaming_response env ch none mt g f).1 =
       [StreamEvent.raisedError "AttributeError: AI_DEFAULT_TEMPERATURE"]) ∧
    (∀ env ch tv g f, (generate_streaming_response env ch (some tv) none g f).1 =
       [StreamEvent.raisedError "AttributeError: AI_DEFAULT_MAX_TOKENS"]) ∧
    (∀ env ch temp mt g f s, temp = none ∨ mt = none →
       (generate_response env ch temp mt g f).1 ≠ GenResult.ok s) := by
  refine ⟨⟨by decide, by decide, by decide⟩, fun msgs => rfl, ?_, ?_,
    fun env ch mt g f => rfl, fun env ch tv g f => rfl,
    fun env ch temp mt g f s _ => generate_response_never_ok env ch temp mt g f s⟩
  · intro env ch mt g f hu hq
    simp [generate_response, hu, hq]
  · intro env ch tv g f hu hq
    simp [generate_response, hu, hq]

/-- Closed instance of `c3_missing_ai_settings`: a premium user with a
fresh usage row and a healthy primary provider still gets
`AttributeError` on each default. -/
theorem c3_missing_ai_settings_witness :
    (generate_response ⟨true, true, true, ⟨0, 0, 0, 0⟩, 0, 25, "1.5-flash"⟩ []
        none (some 100) (GeminiOutcome.body "ok") (FreewayOutcome.body "x" none)).1 =
      GenResult.raised (GenErr.attributeError "AI_DEFAULT_TEMPERATURE") ∧
    (generate_response ⟨true, true, true, ⟨0, 0, 0, 0⟩, 0, 25, "1.5-flash"⟩ []
        (some 1) none (GeminiOutcome.body "ok") (FreewayOutcome.body "x" none)).1 =
      GenResult.raised (GenErr.attributeError "AI_DEFAULT_MAX_TOKENS") :=
  ⟨c3_missing_ai_settings.2.2.1 _ [] (some 100) _ _ rfl (by decide)
  , c3_missing_ai_settings.2.2.2.1 _ [] 1 _ _ rfl (by decide)⟩

/-! ## Claim C10 -/

/-- Claim C10: when the stripped input message equals the literal
`[GREETING]` sentinel, `send_message` hands the generation pipeline an
empty conversation history — whatever the stored session history is — and
replaces the user-turn text by the fixed self-introduction instruction;
and an empty history maps to an empty role-tagged sequence for any
explicit window size. -/
theorem c10_greeting_sentinel (message_text : String)
    (stored : List ChatMessage) (h : pyStrip message_text = "[GREETING]") :
    send_message_args message_text stored = (greetingInstruction, []) ∧
    (∀ lim, build_conversation_history [] (some lim) = Except.ok []) := by
  constructor
  · simp [send_message_args, h]
  · intro lim
    simp [build_conversation_history, sortByTime, pyTakeLast]

/-- Closed instance of `c10_greeting_sentinel`: the sentinel surrounded
by whitespace, with a non-empty stored history. -/
theorem c10_greeting_sentinel_witness :
    send_message_args "  [GREETING]  " [⟨"user", "hello", 5⟩] =
      (greetingInstruction, []) :=
  (c10_greeting_sentinel "  [GREETING]  " [⟨"user", "hello", 5⟩] (by decide)).1

end AiPersona
